import Mathlib

/-!
Shallow embedding of the halolight-api-bun authentication/token-lifecycle
flow (src/utils/jwt, src/services/auth.service.ts, src/middleware/auth.ts,
src/routes/auth.ts, src/services/user.service.ts), with theorems checking
the specification's claims about it.

Time is passed explicitly: `nowMs` is `Date.now()` in milliseconds and
`nowMs / 1000` is the whole-second clock the JWT layer uses
(`Math.floor(Date.now() / 1000)`).  `crypto.randomUUID()` results are
passed in as explicit fresh-id arguments.  The external `hono/jwt`
library is modelled at its contract boundary: `sign` is deterministic
(HS256 over a JSON payload), so a signed token is its payload together
with the signing secret, and two tokens coincide exactly when payload and
secret coincide; `verify` checks the secret and the signed expiry.
-/

namespace HaloLight

/-! ## Duration-string parsing (src/utils/jwt.ts `parseExpiresIn`,
src/routes/auth.ts `parseExpirationToSeconds`) -/

/-- Value of a digit list read left to right, as `parseInt(_, 10)` does on
an all-digit string. -/
def digitsToNat (ds : List Char) : Nat :=
  ds.foldl (fun n c => n * 10 + (c.toNat - 48)) 0

/-- The regex `^(\d+)([smhd])$` of both duration parsers: a non-empty run
of digits followed by a single unit letter.  Returns the captured number
and unit on a match. -/
def durMatch (s : String) : Option (Nat × Char) :=
  match s.data.reverse with
  | [] => none
  | u :: rest =>
    let ds := rest.reverse
    if ds ≠ [] ∧ ds.all (fun c => c.isDigit) ∧ (u = 's' ∨ u = 'm' ∨ u = 'h' ∨ u = 'd') then
      some (digitsToNat ds, u)
    else
      none

/-- Seconds per unit, the `multipliers` record of `parseExpiresIn`. -/
def multiplier (u : Char) : Nat :=
  if u = 's' then 1
  else if u = 'm' then 60
  else if u = 'h' then 3600
  else if u = 'd' then 86400
  else 0

/-- `parseExpiresIn` from src/utils/jwt.ts: throws on any string that does
not match the duration grammar. -/
def parseExpiresIn (expiresIn : String) : Except String Nat :=
  match durMatch expiresIn with
  | none => .error "Invalid expires format. Use format: 1s, 1m, 1h, 1d"
  | some (value, unit) => .ok (value * multiplier unit)

/-- `parseExpirationToSeconds` from src/routes/auth.ts: falls back to 900
(15 minutes) on any string that does not match the duration grammar. -/
def parseExpirationToSeconds (e : String) : Nat :=
  match durMatch e with
  | none => 900
  | some (value, unit) =>
    match unit with
    | 's' => value
    | 'm' => value * 60
    | 'h' => value * 3600
    | 'd' => value * 86400
    | _ => 900

/-! ## JWT model (src/utils/jwt.ts over hono/jwt) -/

/-- The `type` discriminator field of a token payload. -/
inductive TokenType where
  | access
  | refresh
deriving DecidableEq, Repr

/-- A JWT payload as built by `generateAccessToken` / `generateRefreshToken`:
access payloads carry an `email` field, refresh payloads do not. -/
structure JwtPayload where
  userId : String
  email : Option String
  type : TokenType
  iat : Nat
  exp : Nat
deriving DecidableEq, Repr

/-- A signed token.  HS256 signing of a JSON payload is deterministic, so
the token string is determined by (payload, secret), and distinct
(payload, secret) pairs give distinct strings. -/
structure SignedToken where
  payload : JwtPayload
  secret : String
deriving DecidableEq, Repr

/-- hono/jwt `sign`. -/
def jwtSign (p : JwtPayload) (secret : String) : SignedToken := ⟨p, secret⟩

/-- hono/jwt `verify`: the signature must check out against `secret` and
the signed expiry must not have passed. -/
def jwtVerify (t : SignedToken) (secret : String) (nowSec : Nat) : Option JwtPayload :=
  if t.secret = secret ∧ nowSec < t.payload.exp then some t.payload else none

/-- The JWT configuration read from the environment at module load
(secrets and the two expiry strings). -/
structure Config where
  jwtSecret : String
  refreshSecret : String
  jwtExpiresIn : String
  refreshExpiresIn : String
deriving DecidableEq, Repr

/-- The development-default configuration of src/utils/jwt.ts. -/
def defaultConfig : Config :=
  { jwtSecret := "dev-jwt-secret-minimum-32-characters-long"
    refreshSecret := "dev-refresh-secret-minimum-32-characters"
    jwtExpiresIn := "15m"
    refreshExpiresIn := "7d" }

/-- `generateAccessToken(userId, email)`: propagates the `parseExpiresIn`
error if the configured expiry string is unparseable. -/
def generateAccessToken (cfg : Config) (nowSec : Nat) (userId email : String) :
    Except String SignedToken :=
  match parseExpiresIn cfg.jwtExpiresIn with
  | .error e => .error e
  | .ok expiresInSeconds =>
    .ok (jwtSign
      { userId := userId, email := some email, type := .access
        iat := nowSec, exp := nowSec + expiresInSeconds }
      cfg.jwtSecret)

/-- `generateRefreshToken(userId)`: returns the token and the absolute
expiry `new Date((now + expiresInSeconds) * 1000)` in milliseconds. -/
def generateRefreshToken (cfg : Config) (nowSec : Nat) (userId : String) :
    Except String (SignedToken × Nat) :=
  match parseExpiresIn cfg.refreshExpiresIn with
  | .error e => .error e
  | .ok expiresInSeconds =>
    .ok (jwtSign
      { userId := userId, email := none, type := .refresh
        iat := nowSec, exp := nowSec + expiresInSeconds }
      cfg.refreshSecret,
      (nowSec + expiresInSeconds) * 1000)

/-- `verifyAccessToken`: any verification failure, including a wrong
discriminator, is caught and surfaced as one generic message. -/
def verifyAccessToken (cfg : Config) (nowSec : Nat) (t : SignedToken) :
    Except String JwtPayload :=
  match jwtVerify t cfg.jwtSecret nowSec with
  | some p => if p.type = .access then .ok p else .error "Invalid or expired access token"
  | none => .error "Invalid or expired access token"

/-- `verifyRefreshToken`: symmetric to `verifyAccessToken` for the
refresh secret and the `refresh` discriminator. -/
def verifyRefreshToken (cfg : Config) (nowSec : Nat) (t : SignedToken) :
    Except String JwtPayload :=
  match jwtVerify t cfg.refreshSecret nowSec with
  | some p => if p.type = .refresh then .ok p else .error "Invalid or expired refresh token"
  | none => .error "Invalid or expired refresh token"

/-! ## Database model (src/db/schema.ts tables used by the auth flow) -/

/-- The `user_status` enum. -/
inductive UserStatus where
  | ACTIVE
  | INACTIVE
  | SUSPENDED
deriving DecidableEq, Repr

/-- A row of the `users` table (the columns the auth flow reads). -/
structure UserRow where
  id : String
  email : String
  username : String
  password : String
  status : UserStatus
  lastLoginAt : Option Nat
deriving DecidableEq, Repr

/-- A row of the `refresh_tokens` table.  `expiresAt` is a timestamp in
milliseconds.  The `token` column carries a `unique` constraint in the
schema. -/
structure RefreshTokenRow where
  id : String
  userId : String
  token : SignedToken
  expiresAt : Nat
deriving DecidableEq, Repr

/-- A row of the `roles` table (the columns the auth flow reads). -/
structure RoleRow where
  id : String
  name : String
deriving DecidableEq, Repr

/-- A row of the `permissions` table (the columns the auth flow reads). -/
structure PermissionRow where
  id : String
  action : String
  resource : String
deriving DecidableEq, Repr

/-- A row of the `user_roles` join table. -/
structure UserRoleRow where
  userId : String
  roleId : String
deriving DecidableEq, Repr

/-- A row of the `role_permissions` join table. -/
structure RolePermissionRow where
  roleId : String
  permissionId : String
deriving DecidableEq, Repr

/-- The database state the auth flow touches. -/
structure DB where
  users : List UserRow
  refreshTokens : List RefreshTokenRow
  roles : List RoleRow
  permissions : List PermissionRow
  userRoles : List UserRoleRow
  rolePermissions : List RolePermissionRow
deriving DecidableEq, Repr

/-! ## User service (src/services/user.service.ts) -/

/-- `userService.findById`: `select ... where eq(users.id, id) limit 1`. -/
def findById (st : DB) (id : String) : Option UserRow :=
  st.users.find? (fun u => u.id == id)

/-- `userService.findByEmail`. -/
def findByEmail (st : DB) (email : String) : Option UserRow :=
  st.users.find? (fun u => u.email == email)

/-- `userService.getUserRoles`: inner join of `user_roles` with `roles`. -/
def getUserRoles (st : DB) (userId : String) : List String :=
  (st.userRoles.filter (fun ur => ur.userId == userId)).filterMap
    (fun ur => (st.roles.find? (fun r => r.id == ur.roleId)).map (fun r => r.name))

/-- First-occurrence deduplication, as `[...new Set(xs)]` does. -/
def dedupFirst (xs : List String) : List String :=
  xs.foldl (fun acc x => if x ∈ acc then acc else acc ++ [x]) []

/-- The user-with-roles-and-permissions projection returned by
`userService.findByIdWithRoles` (password dropped; `roles` are role
names; `permissions` are deduplicated `resource:action` strings). -/
structure UserWithRoles where
  user : UserRow
  roles : List String
  permissions : List String
deriving DecidableEq, Repr

/-- `userService.findByIdWithRoles`: resolves role names, maps them back
to role ids, collects the joined permissions as `resource:action`
strings and deduplicates them. -/
def findByIdWithRoles (st : DB) (id : String) : Option UserWithRoles :=
  match st.users.find? (fun u => u.id == id) with
  | none => none
  | some user =>
    let roleNames := getUserRoles st id
    let permissionNames :=
      if roleNames.isEmpty then []
      else
        let roleIds := (st.roles.filter (fun r => r.name ∈ roleNames)).map (fun r => r.id)
        let perms := (st.rolePermissions.filter (fun rp => rp.roleId ∈ roleIds)).filterMap
          (fun rp => (st.permissions.find? (fun p => p.id == rp.permissionId)).map
            (fun p => p.resource ++ ":" ++ p.action))
        dedupFirst perms
    some { user := user, roles := roleNames, permissions := permissionNames }

/-- `userService.updateLastLogin`. -/
def updateLastLogin (st : DB) (id : String) (nowMs : Nat) : DB :=
  let users := st.users.map
    (fun u => if u.id = id then { u with lastLoginAt := some nowMs } else u)
  { st with users := users }

/-! ## Auth service (src/services/auth.service.ts) -/

/-- The `RefreshResult` of `AuthService.refresh`. -/
structure RefreshResult where
  accessToken : SignedToken
  refreshToken : SignedToken
deriving DecidableEq, Repr

/-- The `AuthResult` of `AuthService.login` / `register`. -/
structure AuthResult where
  user : UserWithRoles
  accessToken : SignedToken
  refreshToken : SignedToken
deriving DecidableEq, Repr

/-- The `where` predicate of the store lookup inside `AuthService.refresh`:
`and(eq(token, t), eq(userId, payload.userId), gt(expiresAt, now))`. -/
def refreshRowMatches (token : SignedToken) (uid : String) (nowMs : Nat)
    (r : RefreshTokenRow) : Bool :=
  decide (r.token = token ∧ r.userId = uid ∧ nowMs < r.expiresAt)

/-- `AuthService.refresh`.  Returns the outcome together with the database
state after the call; every `throw` in the source becomes an `.error`
outcome paired with the state reached at that point.  `newId` stands for
the `crypto.randomUUID()` of the inserted row. -/
def refresh (cfg : Config) (nowMs : Nat) (newId : String) (st : DB)
    (token : SignedToken) : Except String RefreshResult × DB :=
  match verifyRefreshToken cfg (nowMs / 1000) token with
  | .error e => (.error e, st)
  | .ok payload =>
    match st.refreshTokens.find? (refreshRowMatches token payload.userId nowMs) with
    | none => (.error "Invalid or expired refresh token", st)
    | some storedToken =>
      match findById st payload.userId with
      | none => (.error "User not found", st)
      | some userRecord =>
        if userRecord.status ≠ .ACTIVE then
          (.error "Account is deactivated or suspended", st)
        else
          let st1 := { st with refreshTokens :=
            st.refreshTokens.filter (fun r => r.id != storedToken.id) }
          match generateAccessToken cfg (nowMs / 1000) payload.userId userRecord.email with
          | .error e => (.error e, st1)
          | .ok accessToken =>
            match generateRefreshToken cfg (nowMs / 1000) payload.userId with
            | .error e => (.error e, st1)
            | .ok (newRefreshToken, expiresAt) =>
              (.ok { accessToken := accessToken, refreshToken := newRefreshToken },
               { st1 with refreshTokens := st1.refreshTokens ++
                  [{ id := newId, userId := payload.userId,
                     token := newRefreshToken, expiresAt := expiresAt }] })

/-- `AuthService.login`.  `verifyPw` stands for the external bcrypt
`verifyPassword(password, hash)` check. -/
def login (cfg : Config) (verifyPw : String → String → Bool) (nowMs : Nat)
    (newId : String) (st : DB) (email password : String) :
    Except String AuthResult × DB :=
  match findByEmail st email with
  | none => (.error "Invalid email or password", st)
  | some user =>
    if verifyPw password user.password = false then
      (.error "Invalid email or password", st)
    else if user.status ≠ .ACTIVE then
      (.error "Account is deactivated or suspended", st)
    else
      let st1 := updateLastLogin st user.id nowMs
      match findByIdWithRoles st1 user.id with
      | none => (.error "User not found", st1)
      | some userWithRoles =>
        match generateAccessToken cfg (nowMs / 1000) user.id user.email with
        | .error e => (.error e, st1)
        | .ok accessToken =>
          match generateRefreshToken cfg (nowMs / 1000) user.id with
          | .error e => (.error e, st1)
          | .ok (refreshToken, expiresAt) =>
            (.ok { user := userWithRoles, accessToken := accessToken,
                   refreshToken := refreshToken },
             { st1 with refreshTokens := st1.refreshTokens ++
                [{ id := newId, userId := user.id,
                   token := refreshToken, expiresAt := expiresAt }] })

/-- `AuthService.logout`: delete by token value. -/
def logout (st : DB) (token : SignedToken) : DB :=
  { st with refreshTokens := st.refreshTokens.filter (fun r => r.token != token) }

/-- `AuthService.logoutAll`: delete every row of the user. -/
def logoutAll (st : DB) (userId : String) : DB :=
  { st with refreshTokens := st.refreshTokens.filter (fun r => r.userId != userId) }

/-! ## Request guard (src/middleware/auth.ts `requirePermission`) -/

/-- Outcome of the permission guard: either the request proceeds to the
handler, or it is rejected with the middleware's error response. -/
inductive GuardOutcome where
  | passed (user : UserWithRoles)
  | unauthorized (msg : String)
  | notFound (msg : String)
  | forbidden (msg : String)
deriving DecidableEq, Repr

/-- `requirePermission(resource, action)`: re-resolves the
user-with-roles-and-permissions projection and checks the exact
permission and the three wildcard forms. -/
def requirePermission (st : DB) (resource action : String)
    (ctxUser : Option JwtPayload) : GuardOutcome :=
  match ctxUser with
  | none => .unauthorized "Authentication required"
  | some user =>
    match findByIdWithRoles st user.userId with
    | none => .notFound "User not found"
    | some userWithRoles =>
      let requiredPermission := resource ++ ":" ++ action
      if "*:*" ∈ userWithRoles.permissions ∨
         (resource ++ ":*") ∈ userWithRoles.permissions ∨
         ("*:" ++ action) ∈ userWithRoles.permissions ∨
         requiredPermission ∈ userWithRoles.permissions then
        .passed userWithRoles
      else
        .forbidden "Insufficient permissions"

/-! ## Concrete fixtures for witnesses and counterexamples -/

/-- A refresh token for user `u1` issued at second 0 under the default
configuration (`7d` = 604800 seconds). -/
def tok0 : SignedToken :=
  jwtSign { userId := "u1", email := none, type := .refresh, iat := 0, exp := 604800 }
    defaultConfig.refreshSecret

/-- The user row of `u1`, active. -/
def userU1 : UserRow :=
  { id := "u1", email := "u1@example.com", username := "u1", password := "h1"
    status := .ACTIVE, lastLoginAt := none }

/-- The persisted row of `tok0`, as `storeRefreshToken` writes it
(expiry 604800 s = 604800000 ms). -/
def rowR0 : RefreshTokenRow :=
  { id := "r0", userId := "u1", token := tok0, expiresAt := 604800000 }

/-- A database holding `u1` and the stored row of `tok0`. -/
def stEx1 : DB :=
  { users := [userU1]
    refreshTokens := [rowR0]
    roles := [], permissions := [], userRoles := [], rolePermissions := [] }

/-- The empty database. -/
def stEmpty : DB :=
  { users := [], refreshTokens := [], roles := [], permissions := []
    userRoles := [], rolePermissions := [] }

/-- A database for exercising the permission guard: `u1` has role
`admin`, and `admin` carries the single permission `docs:read`. -/
def stC8 : DB :=
  { users := [userU1]
    refreshTokens := []
    roles := [{ id := "role1", name := "admin" }]
    permissions := [{ id := "p1", action := "read", resource := "docs" }]
    userRoles := [{ userId := "u1", roleId := "role1" }]
    rolePermissions := [{ roleId := "role1", permissionId := "p1" }] }

/-- The access-token payload of `u1` used by guard witnesses. -/
def payloadU1 : JwtPayload :=
  { userId := "u1", email := some "u1@example.com", type := .access, iat := 0, exp := 900 }

/-- The user-with-roles projection of `u1` in `stC8`. -/
def uwrU1 : UserWithRoles :=
  { user := userU1, roles := ["admin"], permissions := ["docs:read"] }

/-- The access token issued for `u1` at second 0 under the default
configuration (`15m` = 900 seconds). -/
def atok0 : SignedToken :=
  jwtSign { userId := "u1", email := some "u1@example.com", type := .access
            iat := 0, exp := 900 } defaultConfig.jwtSecret

/-- The refresh token issued for `u1` at second 1. -/
def tok1 : SignedToken :=
  jwtSign { userId := "u1", email := none, type := .refresh, iat := 1, exp := 604801 }
    defaultConfig.refreshSecret

/-- The access token issued for `u1` at second 1. -/
def atok1 : SignedToken :=
  jwtSign { userId := "u1", email := some "u1@example.com", type := .access
            iat := 1, exp := 901 } defaultConfig.jwtSecret

/-- The result of refreshing `tok0` in `stEx1` at `nowMs = 1000`. -/
def resW : RefreshResult := { accessToken := atok1, refreshToken := tok1 }

/-! ## Helper lemmas -/

/-- Unfolding of the stored-row predicate of `AuthService.refresh`. -/
lemma refreshRowMatches_iff (t : SignedToken) (uid : String) (nowMs : Nat)
    (r : RefreshTokenRow) :
    refreshRowMatches t uid nowMs r = true ↔
      r.token = t ∧ r.userId = uid ∧ nowMs < r.expiresAt := by
  simp [refreshRowMatches]

/-- A successful `verifyRefreshToken` means: matching secret, unexpired
signed expiry, `refresh` discriminator, and the returned claims are the
token's payload. -/
lemma verifyRefreshToken_ok (cfg : Config) (n : Nat) (t : SignedToken) (p : JwtPayload)
    (h : verifyRefreshToken cfg n t = .ok p) :
    p = t.payload ∧ t.secret = cfg.refreshSecret ∧ n < t.payload.exp ∧
      t.payload.type = .refresh := by
  unfold verifyRefreshToken jwtVerify at h
  by_cases hc : t.secret = cfg.refreshSecret ∧ n < t.payload.exp
  · rw [if_pos hc] at h
    by_cases ht : t.payload.type = .refresh
    · simp only [ht, if_pos] at h
      exact ⟨(Except.ok.injEq _ _ ▸ h).symm, hc.1, hc.2, ht⟩
    · simp [ht] at h
  · rw [if_neg hc] at h
    simp at h

/-- Conversely, those conditions make `verifyRefreshToken` succeed. -/
lemma verifyRefreshToken_ok_of (cfg : Config) (n : Nat) (t : SignedToken)
    (h1 : t.secret = cfg.refreshSecret) (h2 : n < t.payload.exp)
    (h3 : t.payload.type = .refresh) :
    verifyRefreshToken cfg n t = .ok t.payload := by
  unfold verifyRefreshToken jwtVerify
  rw [if_pos ⟨h1, h2⟩]
  simp [h3]

/-- `verifyRefreshToken` only ever fails with its one generic message. -/
lemma verifyRefreshToken_error_msg (cfg : Config) (n : Nat) (t : SignedToken) (e : String)
    (h : verifyRefreshToken cfg n t = .error e) :
    e = "Invalid or expired refresh token" := by
  unfold verifyRefreshToken jwtVerify at h
  by_cases hc : t.secret = cfg.refreshSecret ∧ n < t.payload.exp
  · rw [if_pos hc] at h
    by_cases ht : t.payload.type = .refresh
    · simp [ht] at h
    · simp only [ht, if_neg] at h
      simp at h
      exact h.symm
  · rw [if_neg hc] at h
    simp at h
    exact h.symm

/-- Characterization of a successful `AuthService.refresh` call: the
submitted token verified (secret, signed expiry, discriminator), a
matching unexpired store row for the same user was found, the user
exists and is active, and the store afterwards is the old store minus
the consumed row plus one freshly issued row whose token was signed at
`nowMs / 1000`. -/
lemma refresh_ok_state (cfg : Config) (nowMs : Nat) (newId : String) (st : DB)
    (t : SignedToken) (res : RefreshResult)
    (hok : (refresh cfg nowMs newId st t).1 = .ok res) :
    t.secret = cfg.refreshSecret ∧ t.payload.type = .refresh ∧
    (∃ u, findById st t.payload.userId = some u ∧ u.status = .ACTIVE) ∧
    ∃ storedToken dr,
      storedToken ∈ st.refreshTokens ∧ storedToken.token = t ∧
      storedToken.userId = t.payload.userId ∧ nowMs < storedToken.expiresAt ∧
      parseExpiresIn cfg.refreshExpiresIn = .ok dr ∧
      res.refreshToken = jwtSign
        { userId := t.payload.userId, email := none, type := .refresh
          iat := nowMs / 1000, exp := nowMs / 1000 + dr } cfg.refreshSecret ∧
      (refresh cfg nowMs newId st t).2.refreshTokens =
        (st.refreshTokens.filter (fun r => r.id != storedToken.id)) ++
          [{ id := newId, userId := t.payload.userId, token := res.refreshToken,
             expiresAt := (nowMs / 1000 + dr) * 1000 }] := by
  cases hv : verifyRefreshToken cfg (nowMs / 1000) t with
  | error e => simp [refresh, hv] at hok
  | ok payload =>
    obtain ⟨hpay, hsec, hexp, htype⟩ := verifyRefreshToken_ok _ _ _ _ hv
    subst hpay
    cases hf : st.refreshTokens.find? (refreshRowMatches t t.payload.userId nowMs) with
    | none => simp [refresh, hv, hf] at hok
    | some storedToken =>
      obtain ⟨htok, huid, hlt⟩ := (refreshRowMatches_iff _ _ _ _).mp (List.find?_some hf)
      have hmem := List.mem_of_find?_eq_some hf
      cases hu : findById st t.payload.userId with
      | none => simp [refresh, hv, hf, hu] at hok
      | some userRecord =>
        by_cases hs : userRecord.status = .ACTIVE
        case neg => simp [refresh, hv, hf, hu, hs] at hok
        case pos =>
          cases hga : generateAccessToken cfg (nowMs / 1000) t.payload.userId
              userRecord.email with
          | error e2 => simp [refresh, hv, hf, hu, hs, hga] at hok
          | ok atk =>
            cases hpe : parseExpiresIn cfg.refreshExpiresIn with
            | error e3 =>
              simp [refresh, hv, hf, hu, hs, hga, generateRefreshToken, hpe] at hok
            | ok dr =>
              simp [refresh, hv, hf, hu, hs, hga, generateRefreshToken, hpe] at hok ⊢
              subst hok
              exact ⟨hsec, htype, storedToken, hmem, htok, huid, hlt, rfl, rfl⟩

/-! ## Claim C5 -/

/-- Claim C5 (counterexample): the expiry-string parser used by the token
issuer, `parseExpiresIn`, raises an error on the non-matching input
`"abc"` instead of returning a safe default. -/
theorem parseExpiresIn_error_on_unparseable :
    parseExpiresIn "abc" =
      .error "Invalid expires format. Use format: 1s, 1m, 1h, 1d" := by
  rfl

/-- Claim C5 (amended): for every input string that does not match the
duration grammar, the route-level reporter `parseExpirationToSeconds`
falls back to the default 900 seconds and never errors, while the parser
used by the token issuer, `parseExpiresIn`, raises an error on exactly
those strings. -/
theorem duration_fallback_split (s : String) (h : durMatch s = none) :
    parseExpirationToSeconds s = 900 ∧
      parseExpiresIn s =
        .error "Invalid expires format. Use format: 1s, 1m, 1h, 1d" := by
  constructor
  · unfold parseExpirationToSeconds
    rw [h]
  · unfold parseExpiresIn
    rw [h]

/-- Claim C5 (witness): the amended statement evaluated at `"abc"`. -/
theorem duration_fallback_split_witness :
    durMatch "abc" = none ∧
      (parseExpirationToSeconds "abc" = 900 ∧
        parseExpiresIn "abc" =
          .error "Invalid expires format. Use format: 1s, 1m, 1h, 1d") :=
  ⟨by rfl, duration_fallback_split "abc" (by rfl)⟩

/-! ## Claim C3 -/

/-- Claim C3: under any configuration whose two expiry strings parse to
positive durations, (1) an access token issued by `generateAccessToken`
verifies with `verifyAccessToken` at issuance time and recovers the same
userId and email, (2) a refresh token issued by `generateRefreshToken` is
rejected by `verifyAccessToken`, and (3) an access token is rejected by
`verifyRefreshToken`. -/
theorem token_roundtrip_and_discrimination (cfg : Config) (now : Nat)
    (userId email : String) (da dr : Nat)
    (ha : parseExpiresIn cfg.jwtExpiresIn = .ok da) (hda : 0 < da)
    (hr : parseExpiresIn cfg.refreshExpiresIn = .ok dr) (hdr : 0 < dr) :
    (∃ t, generateAccessToken cfg now userId email = .ok t ∧
       verifyAccessToken cfg now t = .ok t.payload ∧
       t.payload.userId = userId ∧ t.payload.email = some email) ∧
    (∃ t ems, generateRefreshToken cfg now userId = .ok (t, ems) ∧
       verifyAccessToken cfg now t = .error "Invalid or expired access token") ∧
    (∃ t, generateAccessToken cfg now userId email = .ok t ∧
       verifyRefreshToken cfg now t = .error "Invalid or expired refresh token") := by
  have hlta : now < now + da := Nat.lt_add_of_pos_right hda
  have hltr : now < now + dr := Nat.lt_add_of_pos_right hdr
  have hacc : generateAccessToken cfg now userId email =
      .ok (jwtSign
        { userId := userId, email := some email, type := .access
          iat := now, exp := now + da } cfg.jwtSecret) := by
    unfold generateAccessToken
    rw [ha]
  have href : generateRefreshToken cfg now userId =
      .ok (jwtSign
        { userId := userId, email := none, type := .refresh
          iat := now, exp := now + dr } cfg.refreshSecret, (now + dr) * 1000) := by
    unfold generateRefreshToken
    rw [hr]
  refine ⟨⟨_, hacc, ?_, rfl, rfl⟩, ⟨_, _, href, ?_⟩, ⟨_, hacc, ?_⟩⟩
  · unfold verifyAccessToken jwtVerify jwtSign
    simp [hlta]
  · unfold verifyAccessToken jwtVerify jwtSign
    by_cases hsec : cfg.refreshSecret = cfg.jwtSecret
    · simp [hsec, hltr]
    · simp [hsec]
  · unfold verifyRefreshToken jwtVerify jwtSign
    by_cases hsec : cfg.jwtSecret = cfg.refreshSecret
    · simp [hsec, hlta]
    · simp [hsec]

/-- Claim C3 (witness): the statement at the default configuration,
second 0, user `alice-id`, email `alice@example.com`. -/
theorem token_roundtrip_and_discrimination_witness :
    (∃ t, generateAccessToken defaultConfig 0 "alice-id" "alice@example.com" = .ok t ∧
       verifyAccessToken defaultConfig 0 t = .ok t.payload ∧
       t.payload.userId = "alice-id" ∧ t.payload.email = some "alice@example.com") ∧
    (∃ t ems, generateRefreshToken defaultConfig 0 "alice-id" = .ok (t, ems) ∧
       verifyAccessToken defaultConfig 0 t = .error "Invalid or expired access token") ∧
    (∃ t, generateAccessToken defaultConfig 0 "alice-id" "alice@example.com" = .ok t ∧
       verifyRefreshToken defaultConfig 0 t =
         .error "Invalid or expired refresh token") :=
  token_roundtrip_and_discrimination defaultConfig 0 "alice-id" "alice@example.com"
    900 604800 (by rfl) (by decide) (by rfl) (by decide)

/-! ## Claim C10 -/

/-- Claim C10: the `expiresAt` returned by `generateRefreshToken` (the
value persisted next to the token in the refresh-token store) is exactly
the signed `exp` claim converted to milliseconds, where `exp` is the
issued-at second plus the parsed configured duration. -/
theorem refresh_token_expiry_agreement (cfg : Config) (now : Nat) (userId : String)
    (t : SignedToken) (expiresAt : Nat)
    (h : generateRefreshToken cfg now userId = .ok (t, expiresAt)) :
    expiresAt = t.payload.exp * 1000 ∧ t.payload.iat = now ∧
      ∃ d, parseExpiresIn cfg.refreshExpiresIn = .ok d ∧ t.payload.exp = now + d := by
  unfold generateRefreshToken at h
  cases hp : parseExpiresIn cfg.refreshExpiresIn with
  | error e => rw [hp] at h; simp at h
  | ok d =>
    rw [hp] at h
    simp only [Except.ok.injEq, Prod.mk.injEq] at h
    obtain ⟨ht, he⟩ := h
    subst ht
    subst he
    exact ⟨rfl, rfl, d, rfl, rfl⟩

/-- Claim C10 (witness): at the default configuration (`7d`), second 0,
user `u1`: the persisted expiry 604800000 ms equals the signed `exp`
604800 s times 1000. -/
theorem refresh_token_expiry_agreement_witness :
    tok0.payload.exp * 1000 = 604800000 ∧
      ((604800000 : Nat) = tok0.payload.exp * 1000 ∧ tok0.payload.iat = 0 ∧
        ∃ d, parseExpiresIn defaultConfig.refreshExpiresIn = .ok d ∧
          tok0.payload.exp = 0 + d) :=
  ⟨by rfl, refresh_token_expiry_agreement defaultConfig 0 "u1" tok0 604800000 (by rfl)⟩

/-! ## Claim C4 -/

/-- Claim C4: a login that fails because no user has the given email and
a login that fails because the password does not match the stored hash
produce the one identical error message, so callers cannot distinguish a
non-existent account from a wrong password.  (Both are surfaced by the
route with the same 401 classification.) -/
theorem login_enumeration_resistance (cfg : Config) (vp : String → String → Bool)
    (nowMs : Nat) (newId newId' : String) (st : DB) (e p e' p' : String) (u : UserRow)
    (h1 : findByEmail st e = none)
    (h2 : findByEmail st e' = some u) (h3 : vp p' u.password = false) :
    (login cfg vp nowMs newId st e p).1 = .error "Invalid email or password" ∧
    (login cfg vp nowMs newId' st e' p').1 = .error "Invalid email or password" := by
  constructor
  · simp only [login, h1]
  · simp only [login, h2, h3]
    simp

/-- Claim C4 (witness): in `stEx1` with a password check that rejects,
the unknown-email login and the wrong-password login for `u1` both
return the same message. -/
theorem login_enumeration_resistance_witness :
    (login defaultConfig (fun _ _ => false) 0 "n1" stEx1 "nobody@example.com" "pw").1 =
      .error "Invalid email or password" ∧
    (login defaultConfig (fun _ _ => false) 0 "n2" stEx1 "u1@example.com" "wrong").1 =
      .error "Invalid email or password" :=
  login_enumeration_resistance defaultConfig (fun _ _ => false) 0 "n1" "n2" stEx1
    "nobody@example.com" "pw" "u1@example.com" "wrong" userU1 (by rfl) (by rfl) (by rfl)

/-! ## Claim C8 -/

/-- Claim C8: when the principal resolves to a user-with-permissions
projection `u`, the permission guard for `(resource, action)` passes
exactly when `u`'s effective permission set contains one of the four
strings `resource:action`, `resource:*`, `*:action`, `*:*`; when it
contains none of them, the guard fails with the Forbidden response. -/
theorem requirePermission_pass_iff (st : DB) (resource action : String)
    (payload : JwtPayload) (u : UserWithRoles)
    (h : findByIdWithRoles st payload.userId = some u) :
    (requirePermission st resource action (some payload) = .passed u ↔
      (resource ++ ":" ++ action) ∈ u.permissions ∨
        (resource ++ ":*") ∈ u.permissions ∨
        ("*:" ++ action) ∈ u.permissions ∨ "*:*" ∈ u.permissions) ∧
    (((resource ++ ":" ++ action) ∉ u.permissions ∧
        (resource ++ ":*") ∉ u.permissions ∧
        ("*:" ++ action) ∉ u.permissions ∧ "*:*" ∉ u.permissions) →
      requirePermission st resource action (some payload) =
        .forbidden "Insufficient permissions") := by
  simp only [requirePermission, h]
  by_cases hc : "*:*" ∈ u.permissions ∨ (resource ++ ":*") ∈ u.permissions ∨
      ("*:" ++ action) ∈ u.permissions ∨ (resource ++ ":" ++ action) ∈ u.permissions
  · rw [if_pos hc]
    refine ⟨⟨fun _ => by tauto, fun _ => rfl⟩, fun hn => absurd hc (by tauto)⟩
  · rw [if_neg hc]
    refine ⟨⟨fun hcontra => by simp at hcontra, fun hd => absurd ?_ hc⟩, fun _ => rfl⟩
    tauto

/-- Claim C8 (witness): in `stC8`, the guard for `(docs, read)` passes
for `u1` (who holds the exact permission `docs:read`), and the pass
condition coincides with the four-string membership check. -/
theorem requirePermission_pass_iff_witness :
    ((requirePermission stC8 "docs" "read" (some payloadU1) = .passed uwrU1 ↔
      ("docs" ++ ":" ++ "read") ∈ uwrU1.permissions ∨
        ("docs" ++ ":*") ∈ uwrU1.permissions ∨
        ("*:" ++ "read") ∈ uwrU1.permissions ∨ "*:*" ∈ uwrU1.permissions) ∧
     ((("docs" ++ ":" ++ "read") ∉ uwrU1.permissions ∧
        ("docs" ++ ":*") ∉ uwrU1.permissions ∧
        ("*:" ++ "read") ∉ uwrU1.permissions ∧ "*:*" ∉ uwrU1.permissions) →
      requirePermission stC8 "docs" "read" (some payloadU1) =
        .forbidden "Insufficient permissions")) ∧
    requirePermission stC8 "docs" "read" (some payloadU1) = .passed uwrU1 :=
  ⟨requirePermission_pass_iff stC8 "docs" "read" payloadU1 uwrU1 (by rfl), by rfl⟩

/-! ## Claim C6 -/

/-- Claim C6: after `logoutAll(u)`, no refresh-token row of `u` remains —
so any refresh attempt with a token whose payload names `u` fails the
store check with the Unauthorized message — while the rows of every
other user are exactly the ones that were there before. -/
theorem logoutAll_revokes_user_tokens_only (st : DB) (uid : String) :
    (∀ cfg nowMs newId t, t.payload.userId = uid →
       (refresh cfg nowMs newId (logoutAll st uid) t).1 =
         .error "Invalid or expired refresh token") ∧
    (∀ r, r ∈ (logoutAll st uid).refreshTokens ↔
       r ∈ st.refreshTokens ∧ r.userId ≠ uid) := by
  have hmem : ∀ r, r ∈ (logoutAll st uid).refreshTokens ↔
      r ∈ st.refreshTokens ∧ r.userId ≠ uid := by
    intro r
    simp [logoutAll, List.mem_filter, bne_iff_ne]
  refine ⟨?_, hmem⟩
  intro cfg nowMs newId t ht
  unfold refresh
  cases hv : verifyRefreshToken cfg (nowMs / 1000) t with
  | error e =>
    have he := verifyRefreshToken_error_msg cfg (nowMs / 1000) t e hv
    subst he
    rfl
  | ok payload =>
    have hpay := (verifyRefreshToken_ok cfg (nowMs / 1000) t payload hv).1
    have hnone : (logoutAll st uid).refreshTokens.find?
        (refreshRowMatches t payload.userId nowMs) = none := by
      rw [List.find?_eq_none]
      intro r hr hmatch
      have h1 := ((refreshRowMatches_iff t payload.userId nowMs r).mp hmatch).2.1
      have h2 := ((hmem r).mp hr).2
      rw [h1, hpay, ht] at h2
      exact h2 rfl
    simp [hnone]

/-- Claim C6 (witness): after `logoutAll` of `u1` in `stEx1`, refreshing
with `tok0` fails, and `u1`'s stored row `rowR0` is gone. -/
theorem logoutAll_revokes_user_tokens_only_witness :
    (refresh defaultConfig 0 "n" (logoutAll stEx1 "u1") tok0).1 =
      .error "Invalid or expired refresh token" ∧
    (rowR0 ∈ (logoutAll stEx1 "u1").refreshTokens ↔
      rowR0 ∈ stEx1.refreshTokens ∧ rowR0.userId ≠ "u1") :=
  ⟨(logoutAll_revokes_user_tokens_only stEx1 "u1").1 defaultConfig 0 "n" tok0 (by rfl),
   (logoutAll_revokes_user_tokens_only stEx1 "u1").2 rowR0⟩

/-! ## Claim C2 -/

/-- Claim C2: under a configuration whose expiry strings parse, and for a
store whose rows carry the expiry their token was issued with (the
invariant every code path that inserts rows maintains), `refresh`
succeeds exactly when the token verifies as a refresh token, an
unexpired store row with that exact token and the payload's userId
exists, and the owning user exists with status `ACTIVE`; in every other
case it returns an error (surfaced by the route as 401 Unauthorized). -/
theorem refresh_success_iff (cfg : Config) (nowMs : Nat) (newId : String) (st : DB)
    (t : SignedToken) (da dr : Nat)
    (ha : parseExpiresIn cfg.jwtExpiresIn = .ok da)
    (hr : parseExpiresIn cfg.refreshExpiresIn = .ok dr)
    (hinv : ∀ r ∈ st.refreshTokens, r.expiresAt = r.token.payload.exp * 1000) :
    ((∃ res, (refresh cfg nowMs newId st t).1 = .ok res) ↔
      (t.secret = cfg.refreshSecret ∧ t.payload.type = .refresh ∧
       (∃ r ∈ st.refreshTokens, r.token = t ∧ r.userId = t.payload.userId ∧
          nowMs < r.expiresAt) ∧
       (∃ u, findById st t.payload.userId = some u ∧ u.status = .ACTIVE))) ∧
    (¬ (t.secret = cfg.refreshSecret ∧ t.payload.type = .refresh ∧
       (∃ r ∈ st.refreshTokens, r.token = t ∧ r.userId = t.payload.userId ∧
          nowMs < r.expiresAt) ∧
       (∃ u, findById st t.payload.userId = some u ∧ u.status = .ACTIVE)) →
      ∃ msg, (refresh cfg nowMs newId st t).1 = .error msg) := by
  have hiff : (∃ res, (refresh cfg nowMs newId st t).1 = .ok res) ↔
      (t.secret = cfg.refreshSecret ∧ t.payload.type = .refresh ∧
       (∃ r ∈ st.refreshTokens, r.token = t ∧ r.userId = t.payload.userId ∧
          nowMs < r.expiresAt) ∧
       (∃ u, findById st t.payload.userId = some u ∧ u.status = .ACTIVE)) := by
    constructor
    · rintro ⟨res, hok⟩
      obtain ⟨hsec, htype, huser, storedToken, _, hmem, htok, huid, hlt, _, _, _⟩ :=
        refresh_ok_state cfg nowMs newId st t res hok
      exact ⟨hsec, htype, ⟨storedToken, hmem, htok, huid, hlt⟩, huser⟩
    · rintro ⟨hsec, htype, ⟨r, hrmem, hrtok, hruid, hrlt⟩, u, hu, hus⟩
      have hexp : nowMs / 1000 < t.payload.exp := by
        have h1 := hinv r hrmem
        rw [hrtok] at h1
        rw [h1] at hrlt
        exact (Nat.div_lt_iff_lt_mul (by norm_num)).mpr hrlt
      have hv := verifyRefreshToken_ok_of cfg (nowMs / 1000) t hsec hexp htype
      have hfs : (st.refreshTokens.find?
          (refreshRowMatches t t.payload.userId nowMs)).isSome := by
        rw [List.find?_isSome]
        exact ⟨r, hrmem, (refreshRowMatches_iff _ _ _ _).mpr ⟨hrtok, hruid, hrlt⟩⟩
      obtain ⟨sr, hf⟩ := Option.isSome_iff_exists.mp hfs
      have hga : ∃ a, generateAccessToken cfg (nowMs / 1000) t.payload.userId u.email =
          .ok a := by
        unfold generateAccessToken
        rw [ha]
        exact ⟨_, rfl⟩
      obtain ⟨atk, hga⟩ := hga
      simp [refresh, hv, hf, hu, hus, hga, generateRefreshToken, hr]
  refine ⟨hiff, fun hn => ?_⟩
  cases hres : (refresh cfg nowMs newId st t).1 with
  | error msg => exact ⟨msg, rfl⟩
  | ok res => exact absurd (hiff.mp ⟨res, hres⟩) hn

/-- Claim C2 (witness): in `stEx1` at time 0, all four conditions hold
for `tok0` and `refresh` succeeds. -/
theorem refresh_success_iff_witness :
    ∃ res, (refresh defaultConfig 0 "w" stEx1 tok0).1 = .ok res :=
  ((refresh_success_iff defaultConfig 0 "w" stEx1 tok0 900 604800 (by rfl) (by rfl)
      (by decide)).1).mpr
    ⟨by rfl, by rfl, ⟨rowR0, by decide, by rfl, by rfl, by decide⟩,
      ⟨userU1, by rfl, by rfl⟩⟩

/-! ## Claim C9 -/

/-- Claim C9: under a configuration whose expiry strings parse (so token
issuance itself cannot throw), a failing `refresh` leaves the
refresh-token store exactly as it was: deletion and insertion happen
only after every check has passed. -/
theorem refresh_failure_preserves_store (cfg : Config) (nowMs : Nat) (newId : String)
    (st : DB) (t : SignedToken) (da dr : Nat)
    (ha : parseExpiresIn cfg.jwtExpiresIn = .ok da)
    (hr : parseExpiresIn cfg.refreshExpiresIn = .ok dr)
    (msg : String) (h : (refresh cfg nowMs newId st t).1 = .error msg) :
    (refresh cfg nowMs newId st t).2 = st := by
  cases hv : verifyRefreshToken cfg (nowMs / 1000) t with
  | error e => simp [refresh, hv]
  | ok payload =>
    cases hf : st.refreshTokens.find? (refreshRowMatches t payload.userId nowMs) with
    | none => simp [refresh, hv, hf]
    | some storedToken =>
      cases hu : findById st payload.userId with
      | none => simp [refresh, hv, hf, hu]
      | some userRecord =>
        by_cases hs : userRecord.status = .ACTIVE
        · exfalso
          simp [refresh, hv, hf, hu, hs, generateAccessToken, ha,
            generateRefreshToken, hr] at h
        · simp [refresh, hv, hf, hu, hs]

/-- Claim C9 (witness): refreshing `tok0` against the empty store fails
and leaves the store empty. -/
theorem refresh_failure_preserves_store_witness :
    (refresh defaultConfig 0 "n" stEmpty tok0).1 =
      .error "Invalid or expired refresh token" ∧
    (refresh defaultConfig 0 "n" stEmpty tok0).2 = stEmpty :=
  ⟨by rfl, refresh_failure_preserves_store defaultConfig 0 "n" stEmpty tok0 900 604800
    (by rfl) (by rfl) "Invalid or expired refresh token" (by rfl)⟩

/-! ## Claim C1 -/

/-- Claim C1 (counterexample): rotation within the same second re-issues
the byte-identical token: refreshing `tok0` (issued at second 0) at
`nowMs = 0` succeeds, and a second refresh with the very same `tok0`
against the resulting store also succeeds — the "second use fails"
law does not hold as stated. -/
theorem refresh_same_second_reuse_succeeds :
    ((refresh defaultConfig 0 "r1" stEx1 tok0).1).isOk = true ∧
    ((refresh defaultConfig 0 "r2"
        (refresh defaultConfig 0 "r1" stEx1 tok0).2 tok0).1).isOk = true :=
  ⟨by rfl, by rfl⟩

/-- Claim C1 (amended): if a refresh of `t` succeeds at a time whose
whole second differs from `t`'s issued-at second (so the replacement
token is a different string; token strings are unique in the store), any
later refresh submitting the same `t` fails with the Unauthorized
message: the consumed row is gone and the inserted row holds a different
token. -/
theorem refresh_rotation_single_use (cfg : Config) (nowMs : Nat) (newId : String)
    (st : DB) (t : SignedToken) (res : RefreshResult)
    (hok : (refresh cfg nowMs newId st t).1 = .ok res)
    (hiat : t.payload.iat ≠ nowMs / 1000)
    (hnodup : (st.refreshTokens.map RefreshTokenRow.token).Nodup) :
    ∀ nowMs2 newId2,
      (refresh cfg nowMs2 newId2 (refresh cfg nowMs newId st t).2 t).1 =
        .error "Invalid or expired refresh token" := by
  intro nowMs2 newId2
  obtain ⟨hsec, htype, huser, storedToken, dr, hmem, htok, huid, hlt, hpe, hres, hst2⟩ :=
    refresh_ok_state cfg nowMs newId st t res hok
  set st2 := (refresh cfg nowMs newId st t).2 with hst2eq
  have hnot : ∀ r ∈ st2.refreshTokens, r.token ≠ t := by
    intro r hr
    rw [hst2] at hr
    rcases List.mem_append.mp hr with hr1 | hr2
    · obtain ⟨hrmem, hrid⟩ := List.mem_filter.mp hr1
      intro hrt
      have heq : r = storedToken :=
        List.inj_on_of_nodup_map hnodup hrmem hmem (by rw [hrt, htok])
      rw [heq] at hrid
      simp at hrid
    · have heq : r = RefreshTokenRow.mk newId t.payload.userId res.refreshToken
          ((nowMs / 1000 + dr) * 1000) := by
        simpa using hr2
      rw [heq, hres]
      intro hcontra
      exact hiat (by rw [← hcontra]; rfl)

  cases hv2 : verifyRefreshToken cfg (nowMs2 / 1000) t with
  | error e =>
    have he := verifyRefreshToken_error_msg _ _ _ _ hv2
    subst he
    simp [refresh, hv2]
  | ok p2 =>
    have hp2 := (verifyRefreshToken_ok _ _ _ _ hv2).1
    subst hp2
    have hf2 : st2.refreshTokens.find?
        (refreshRowMatches t t.payload.userId nowMs2) = none := by
      rw [List.find?_eq_none]
      intro x hx hmatch
      exact hnot x hx ((refreshRowMatches_iff _ _ _ _).mp hmatch).1
    simp [refresh, hv2, hf2]

/-- Claim C1 (witness): `tok0` (issued at second 0) is rotated at
`nowMs = 1000` in `stEx1`; resubmitting `tok0` at `nowMs = 5000` fails
with the Unauthorized message. -/
theorem refresh_rotation_single_use_witness :
    (refresh defaultConfig 5000 "w2"
        (refresh defaultConfig 1000 "w1" stEx1 tok0).2 tok0).1 =
      .error "Invalid or expired refresh token" :=
  refresh_rotation_single_use defaultConfig 1000 "w1" stEx1 tok0 resW (by rfl)
    (by decide) (by decide) 5000 "w2"

/-! ## Claim C7 -/

/-- Claim C7 (counterexample): a successful refresh can return exactly
the submitted refresh token string: refreshing `tok0` (issued at second
0) at `nowMs = 0` returns `tok0` itself, because the rotated token is
signed over the identical payload (same userId, same iat second, same
exp) with the same secret. -/
theorem refresh_same_second_returns_same_token :
    (refresh defaultConfig 0 "r1" stEx1 tok0).1 =
      .ok { accessToken := atok0, refreshToken := tok0 } := by
  rfl

/-- Claim C7 (amended): whenever a refresh succeeds at a time whose
whole second differs from the submitted token's issued-at second, the
returned refresh token differs from the submitted one (its signed
payload has a different `iat`). -/
theorem refresh_rotates_to_distinct_token (cfg : Config) (nowMs : Nat) (newId : String)
    (st : DB) (t : SignedToken) (res : RefreshResult)
    (hok : (refresh cfg nowMs newId st t).1 = .ok res)
    (hiat : t.payload.iat ≠ nowMs / 1000) :
    res.refreshToken ≠ t := by
  obtain ⟨_, _, _, storedToken, dr, _, _, _, _, _, hres, _⟩ :=
    refresh_ok_state cfg nowMs newId st t res hok
  rw [hres]
  intro hcontra
  exact hiat (by rw [← hcontra]; rfl)

/-- Claim C7 (witness): the rotation of `tok0` at `nowMs = 1000` returns
`resW`, whose refresh token differs from `tok0`. -/
theorem refresh_rotates_to_distinct_token_witness :
    resW.refreshToken ≠ tok0 :=
  refresh_rotates_to_distinct_token defaultConfig 1000 "w1" stEx1 tok0 resW (by rfl)
    (by decide)

end HaloLight
